import Mathlib

/-!
Verification development for the `redis-migrator` engine
(`src/unnamed/part_003`, with `src/src/lib/redis-migrator.ts` as a close
variant).  The TypeScript engine is shallowly embedded: Redis values become
an inductive `RVal`, the two databases become association lists from key
strings to entries, and each engine routine becomes a pure function on an
explicit state.  Wall-clock-derived fields of the source (`keysPerSecond`,
`startTime`, metric timestamps) and the byte-size accounting are elided;
no claim under scrutiny mentions them.  Each `await` boundary relevant to
a claim is modelled by letting the routine read from separate store
snapshots where a claim needs the store to change between reads.
-/

set_option autoImplicit false

namespace RedisMigrator

/-- The five container kinds the replicator knows, as reported by the
source server TYPE command; `none` is the reply for an absent key and
`other` stands for any further reply. -/
inductive RType where
  | str
  | hash
  | set
  | zset
  | list
  | none
  | other (tag : String)
deriving Repr, DecidableEq

/-- A Redis value.  Scores of a score-ordered set are kept as the strings
the server returns (the engine never parses them); the pair list is the
ascending-score order `ZRANGE 0 -1 WITHSCORES` delivers. -/
inductive RVal where
  | str (v : String)
  | hash (fields : List (String × String))
  | set (members : List String)
  | zset (pairs : List (String × String))
  | list (items : List String)
deriving Repr, DecidableEq

/-- One stored key: its value plus its remaining TTL in seconds,
`-1` meaning no expiry (the TTL reply for an absent key, `-2`, is produced
by the read function, not stored). -/
structure Entry where
  val : RVal
  ttl : Int
deriving Repr, DecidableEq

/-- A database: an association list from key to entry, first match wins. -/
abbrev Store := List (String × Entry)

/-- Look a key up in a store. -/
def sLookup (k : String) : Store → Option Entry
  | [] => Option.none
  | p :: rest => if p.1 = k then Option.some p.2 else sLookup k rest

/-- The TYPE reply for a key. -/
def srcType (s : Store) (k : String) : RType :=
  match sLookup k s with
  | Option.none => RType.none
  | Option.some e =>
    match e.val with
    | RVal.str _ => RType.str
    | RVal.hash _ => RType.hash
    | RVal.set _ => RType.set
    | RVal.zset _ => RType.zset
    | RVal.list _ => RType.list

/-- The EXISTS reply for a key. -/
def srcExists (s : Store) (k : String) : Bool :=
  (sLookup k s).isSome

/-- The TTL reply for a key: `-2` when the key is absent, else the stored
TTL (`-1` = no expiry). -/
def srcTtl (s : Store) (k : String) : Int :=
  match sLookup k s with
  | Option.none => -2
  | Option.some e => e.ttl

/-- GET: the value when the key holds a scalar, else null/absent. -/
def srcGet (s : Store) (k : String) : Option String :=
  match sLookup k s with
  | Option.some ⟨RVal.str v, _⟩ => Option.some v
  | _ => Option.none

/-- HGETALL: all field/value pairs, empty when absent or not a hash. -/
def srcHgetall (s : Store) (k : String) : List (String × String) :=
  match sLookup k s with
  | Option.some ⟨RVal.hash f, _⟩ => f
  | _ => []

/-- SMEMBERS. -/
def srcSmembers (s : Store) (k : String) : List String :=
  match sLookup k s with
  | Option.some ⟨RVal.set m, _⟩ => m
  | _ => []

/-- ZRANGE 0 -1 WITHSCORES, delivered flat as the client sees it:
`[member1, score1, member2, score2, ...]`. -/
def srcZrangeFlat (s : Store) (k : String) : List String :=
  match sLookup k s with
  | Option.some ⟨RVal.zset ps, _⟩ => ps.flatMap (fun p => [p.1, p.2])
  | _ => []

/-- LRANGE 0 -1. -/
def srcLrange (s : Store) (k : String) : List String :=
  match sLookup k s with
  | Option.some ⟨RVal.list items, _⟩ => items
  | _ => []

/-- DBSIZE. -/
def srcDbsize (s : Store) : Nat := s.length

/-- Remove a key (DEL on the target). -/
def tDel (s : Store) (k : String) : Store :=
  match s with
  | [] => []
  | p :: rest => if p.1 = k then tDel rest k else p :: tDel rest k

/-- Replace or insert an entry under a key. -/
def sInsert (s : Store) (k : String) (e : Entry) : Store :=
  (k, e) :: tDel s k

/-- SET on the target: stores the scalar and clears any TTL. -/
def tSet (s : Store) (k : String) (v : String) : Store :=
  sInsert s k ⟨RVal.str v, -1⟩

/-- Upsert one field into a field list, preserving first-occurrence order. -/
def hUpsert (fields : List (String × String)) (f v : String) :
    List (String × String) :=
  if fields.any (fun p => p.1 = f) then
    fields.map (fun p => if p.1 = f then (f, v) else p)
  else fields ++ [(f, v)]

/-- HMSET on the target: merges into an existing hash (keeping its TTL),
creates a fresh hash with no TTL otherwise. -/
def tHmset (s : Store) (k : String) (fs : List (String × String)) : Store :=
  match sLookup k s with
  | Option.some ⟨RVal.hash old, t⟩ =>
    sInsert s k ⟨RVal.hash (fs.foldl (fun acc p => hUpsert acc p.1 p.2) old), t⟩
  | Option.some e => sInsert s k e
  | Option.none => sInsert s k ⟨RVal.hash fs, -1⟩

/-- Append a member to a set value if not yet present. -/
def setAddOne (ms : List String) (m : String) : List String :=
  if m ∈ ms then ms else ms ++ [m]

/-- SADD on the target. -/
def tSadd (s : Store) (k : String) (ms : List String) : Store :=
  match sLookup k s with
  | Option.some ⟨RVal.set old, t⟩ =>
    sInsert s k ⟨RVal.set (ms.foldl setAddOne old), t⟩
  | Option.some e => sInsert s k e
  | Option.none => sInsert s k ⟨RVal.set (ms.foldl setAddOne []), -1⟩

/-- Upsert one (member, score) pair into a zset pair list. -/
def zUpsert (ps : List (String × String)) (m sc : String) :
    List (String × String) :=
  if ps.any (fun p => p.1 = m) then
    ps.map (fun p => if p.1 = m then (m, sc) else p)
  else ps ++ [(m, sc)]

/-- ZADD on the target, given (member, score) pairs. -/
def tZadd (s : Store) (k : String) (ps : List (String × String)) : Store :=
  match sLookup k s with
  | Option.some ⟨RVal.zset old, t⟩ =>
    sInsert s k ⟨RVal.zset (ps.foldl (fun acc p => zUpsert acc p.1 p.2) old), t⟩
  | Option.some e => sInsert s k e
  | Option.none => sInsert s k ⟨RVal.zset ps, -1⟩

/-- RPUSH on the target. -/
def tRpush (s : Store) (k : String) (items : List String) : Store :=
  match sLookup k s with
  | Option.some ⟨RVal.list old, t⟩ =>
    sInsert s k ⟨RVal.list (old ++ items), t⟩
  | Option.some e => sInsert s k e
  | Option.none => sInsert s k ⟨RVal.list items, -1⟩

/-- EXPIRE on the target: sets the TTL of a present key, no-op otherwise
(the engine only issues it with a positive argument). -/
def tExpire (s : Store) (k : String) (r : Int) : Store :=
  match sLookup k s with
  | Option.some e => sInsert s k ⟨e.val, r⟩
  | Option.none => s

/-- The pairing loop of `migrateSortedSet`: from the flat
`[m1, s1, m2, s2, ...]` WITHSCORES reply it pushes `(score, member)`
argument pairs for ZADD; we record them as (member, score). -/
def zPairUp : List String → List (String × String)
  | m :: sc :: rest => (m, sc) :: zPairUp rest
  | _ => []

/-- The running counters (`MigrationStats`), without the wall-clock fields
(`startTime`, `keysPerSecond`) and the byte counter, which no claim
touches.  `processed` and `total` are the key counters; `errors` is the
error list. -/
structure Stats where
  processed : Nat
  total : Nat
  errors : List String
deriving Repr, DecidableEq

/-- The JavaScript expression `Math.min((processed / total) * 100, 100)`:
division by a zero total yields NaN, and `Math.min(NaN, 100)` is NaN;
NaN is modelled as `Option.none`. -/
def percentJS (p t : Nat) : Option ℚ :=
  if t = 0 then Option.none
  else Option.some (min ((p : ℚ) * 100 / (t : ℚ)) 100)

/-- The events the engine emits that the claims observe.  A `progress`
event carries the counters and the computed percentage (`Option.none`
standing for NaN). -/
inductive Ev where
  | keyProcessed (key operation : String)
  | errorEv (msg : String)
  | progress (processed total : Nat) (percent : Option ℚ)
  | scanComplete
  | stopped
deriving Repr, DecidableEq

/-- The error message injected for a key whose source read fails; its
content is opaque to the engine, which only wraps it. -/
def ioMsg : String := "Connection is closed."

/-- Result of one `migrateKey` invocation: the target store after the
writes it performed, the updated stats, the events it emitted, and the
error message it threw (if any). -/
structure MkOut where
  target : Store
  stats : Stats
  events : List Ev
  error : Option String
deriving Repr, DecidableEq

/-- `migrateKey` (part_003 lines 194-254).  Every `await` is a suspension
point, so the routine is parameterised by the snapshot of the source each
read observes: `sE` at the EXISTS check, `sT` at the TYPE read, `sR` at
the TTL and value reads (claims that need no concurrent change pass the
same store three times).  `failing` lists the keys whose first source
read throws an I/O error.  Faithful behaviour:
if EXISTS fails the target key is deleted and the routine returns with no
counter change; otherwise it dispatches on TYPE (an unknown or vanished
type throws `Unsupported key type`), applies EXPIRE iff the TTL read is
positive, increments `processed`, clamps it to `total`, and emits one
`progress` event.  Any thrown error is wrapped as
`Migration failed for key K: ...`. -/
def migrateKeyRun (sE sT sR : Store) (failing : List String) (k : String)
    (tgt : Store) (st : Stats) : MkOut :=
  if failing.contains k then
    ⟨tgt, st, [], Option.some ("Migration failed for key " ++ k ++ ": " ++ ioMsg)⟩
  else if srcExists sE k = false then
    ⟨tDel tgt k, st, [], Option.none⟩
  else
    let ttl := srcTtl sR k
    let written : Option Store :=
      match srcType sT k with
      | RType.str =>
        Option.some (match srcGet sR k with
          | Option.some v => tSet tgt k v
          | Option.none => tgt)
      | RType.hash =>
        let data := srcHgetall sR k
        Option.some (if data.length > 0 then tHmset tgt k data else tgt)
      | RType.set =>
        let ms := srcSmembers sR k
        Option.some (if ms.length > 0 then tSadd tgt k ms else tgt)
      | RType.zset =>
        let flat := srcZrangeFlat sR k
        Option.some (if flat.length > 0 then tZadd tgt k (zPairUp flat) else tgt)
      | RType.list =>
        let items := srcLrange sR k
        Option.some (if items.length > 0 then tRpush (tDel tgt k) k items else tgt)
      | RType.none => Option.none
      | RType.other _ => Option.none
    match written with
    | Option.none =>
      ⟨tgt, st, [],
        Option.some ("Migration failed for key " ++ k ++
          ": Unsupported key type")⟩
    | Option.some tgtW =>
      let tgtF := if ttl > 0 then tExpire tgtW k ttl else tgtW
      let p1 := st.processed + 1
      let p2 := min p1 st.total
      let st2 : Stats := { st with processed := p2 }
      ⟨tgtF, st2, [Ev.progress p2 st.total (percentJS p2 st.total)], Option.none⟩

/-- Process-resident engine state: lifecycle flags, the three session
liveness flags, the coalescing queue (`keyUpdateQueue` with its
`processingQueue` flag), the target store, the stats and the emitted
events.  Mirrors the private fields of `RedisMigrator`. -/
structure EngineSt where
  sync : Bool
  isRunning : Bool
  scanRunning : Bool
  subscribed : Bool
  sourceOpen : Bool
  targetOpen : Bool
  subscriberOpen : Bool
  queue : List String
  processing : Bool
  target : Store
  stats : Stats
  events : List Ev
deriving Repr, DecidableEq

/-- Add a key to the pending set (`Set.add`): a no-op if present. -/
def addKey (q : List String) (k : String) : List String :=
  if k ∈ q then q else q ++ [k]

/-- `updateCounts` (part_003 lines 537-553): re-read DBSIZE into `total`,
clamp `processed` to it, and emit one progress event with the usual
percent formula. -/
def updateCountsRun (dbsize : Nat) (st : Stats) : Stats × List Ev :=
  let st1 : Stats := { st with total := dbsize }
  let st2 : Stats := { st1 with processed := min st1.processed st1.total }
  (st2, [Ev.progress st2.processed st2.total
          (percentJS st2.processed st2.total)])

/-- One key of a drain snapshot (the body of the `Promise.all` inside
`processKeyUpdateQueue`): run `migrateKey`; on success take over its
target/stats and emit the key-processed event; on failure append
`Error processing key K: ...` to the error list and emit an `error`
event, leaving target and counters untouched. -/
def drainStep (src : Store) (failing : List String) (acc : EngineSt)
    (k : String) : EngineSt :=
  let r := migrateKeyRun src src src failing k acc.target acc.stats
  match r.error with
  | Option.none =>
    { acc with
      target := r.target
      stats := r.stats
      events := acc.events ++ r.events ++ [Ev.keyProcessed k "update"] }
  | Option.some e =>
    { acc with
      stats := { acc.stats with
        errors := acc.stats.errors ++
          ["Error processing key " ++ k ++ ": " ++ e] }
      events := acc.events ++ [Ev.errorEv e] }

/-- `processKeyUpdateQueue` (part_003 lines 164-192 and the identical
lib copy): if the pending set is empty, clear the `processingQueue` flag
and return; otherwise set the flag, snapshot and clear the set, and run
`drainStep` over the whole snapshot — per-key failures do not abort the
drain.  Faithfully to the source, the flag is NOT cleared when a
non-empty drain finishes and the set is NOT re-examined. -/
def drainRun (src : Store) (failing : List String) (s : EngineSt) : EngineSt :=
  if s.queue = [] then { s with processing := false }
  else
    let keys := s.queue
    let s0 := { s with processing := true, queue := [] }
    keys.foldl (drainStep src failing) s0

/-- The enqueue-and-kick path of the `setupKeyspaceNotifications`
handler for a set/hset/sadd/zadd notification: add the key to the
pending set, then run the drain worker only when its flag is clear. -/
def onUpdateNotif (src : Store) (failing : List String) (k : String)
    (s : EngineSt) : EngineSt :=
  let s1 := { s with queue := addKey s.queue k }
  if s1.processing then s1 else drainRun src failing s1

/-- The seven list-mutation operations the `setupKeyspaceNotifications`
handler re-replicates inline. -/
def listOps : List String :=
  ["lpush", "rpush", "lpop", "rpop", "lset", "lrem", "ltrim"]

/-- The pmessage handler installed by `setupKeyspaceNotifications`
(part_003 lines 116-154).  NOTE: in part_003 this method is defined but
never invoked, so this handler is never registered there; the lib variant
registers a similar handler without the inline list branch.  Behaviour:
nothing when sync is disabled; a list-mutation op re-replicates the whole
list inline when the key is currently a list; `del` deletes inline;
set/hset/sadd/zadd enqueue and kick the drain; every other op (including
`expire`) falls through the switch with no effect. -/
def onNotifSetup (src : Store) (failing : List String) (k op : String)
    (s : EngineSt) : EngineSt :=
  if s.sync = false then s
  else if listOps.contains op then
    if srcType src k = RType.list then
      let items := srcLrange src k
      let tgt1 := tDel s.target k
      let tgt2 := if items.length > 0 then tRpush tgt1 k items else tgt1
      { s with target := tgt2
               events := s.events ++ [Ev.keyProcessed k "list-update"] }
    else s
  else if op = "del" then
    { s with target := tDel s.target k
             events := s.events ++ [Ev.keyProcessed k "delete"] }
  else if op = "set" ∨ op = "hset" ∨ op = "sadd" ∨ op = "zadd" then
    onUpdateNotif src failing k s
  else s

/-- The six operations the `enableRealtimeSync` handler replicates
inline via `migrateKey`. -/
def updateOps : List String :=
  ["set", "hset", "sadd", "zadd", "lpush", "rpush"]

/-- The pmessage handler installed by `enableRealtimeSync` (part_003
lines 449-484) — the only handler part_003 actually registers (from
`start`).  Behaviour: nothing when sync is disabled;
set/hset/sadd/zadd/lpush/rpush run `migrateKey` inline, then increment
`processed` once more, then run `updateCounts` (which re-reads DBSIZE
and clamps) and emit the key-processed event; `del` deletes inline;
`expire` re-reads the source TTL and applies it iff positive; every
other op (lpop, rpop, lset, lrem, ltrim included) has no effect.  An
error from `migrateKey` is caught and only emitted as an `error` event. -/
def onNotifEnable (src : Store) (failing : List String) (k op : String)
    (s : EngineSt) : EngineSt :=
  if s.sync = false then s
  else if updateOps.contains op then
    let r := migrateKeyRun src src src failing k s.target s.stats
    match r.error with
    | Option.none =>
      let st1 : Stats := { r.stats with processed := r.stats.processed + 1 }
      let (st2, evs) := updateCountsRun (srcDbsize src) st1
      { s with target := r.target
               stats := st2
               events := s.events ++ r.events ++ evs ++
                 [Ev.keyProcessed k "update"] }
    | Option.some e => { s with events := s.events ++ [Ev.errorEv e] }
  else if op = "del" then
    { s with target := tDel s.target k
             events := s.events ++ [Ev.keyProcessed k "delete"] }
  else if op = "expire" then
    let ttl := srcTtl src k
    let tgt := if ttl > 0 then tExpire s.target k ttl else s.target
    { s with target := tgt
             events := s.events ++ [Ev.keyProcessed k "expire"] }
  else s

/-- `stop` (part_003 lines 491-509): clears the scan/run/sync flags,
unsubscribes, clears the pending set and its flag, and emits `stopped`.
Faithfully to the source it closes NO session — `cleanup` does that. -/
def stopRun (s : EngineSt) : EngineSt :=
  { s with scanRunning := false
           isRunning := false
           sync := false
           subscribed := false
           queue := []
           processing := false
           events := s.events ++ [Ev.stopped] }

/-- `cleanup` (part_003 lines 525-535): quits the subscriber, source and
target sessions. -/
def cleanupRun (s : EngineSt) : EngineSt :=
  { s with subscriberOpen := false
           sourceOpen := false
           targetOpen := false }

/-- The guard the bulk scan loop in `start` evaluates at the top of every
page: `this.initialScanRunning && this.isRunning`. -/
def scanLoopGuard (s : EngineSt) : Bool :=
  s.scanRunning && s.isRunning

/-- A command buffered on the target pipeline by the bulk scan path. -/
inductive PipeOp where
  | setOp (k v : String)
  | hmsetOp (k : String) (fields : List (String × String))
  | expireOp (k : String) (ttl : Int)
deriving Repr, DecidableEq

/-- `pipeline.exec()`: apply the buffered commands in order. -/
def applyPipe (tgt : Store) : List PipeOp → Store
  | [] => tgt
  | PipeOp.setOp k v :: rest => applyPipe (tSet tgt k v) rest
  | PipeOp.hmsetOp k fs :: rest => applyPipe (tHmset tgt k fs) rest
  | PipeOp.expireOp k r :: rest => applyPipe (tExpire tgt k r) rest

/-- Per-key body of the bulk scan chunk in `start` (part_003 lines
349-383).  Faithful to the source: the type/ttl reads are followed by a
switch that buffers pipeline commands for the `string` and `hash` cases
ONLY — the remaining cases are elided in the source behind the comment
`// ... other cases remain the same ...` — then EXPIRE is buffered iff
the TTL is positive and `processed` is incremented WITHOUT the clamp
`migrateKey` applies.  A failing key only appends
`Error processing key K: ...` to the error list (no event, no counter). -/
def bulkKeyStep (src : Store) (failing : List String)
    (acc : List PipeOp × Stats) (k : String) : List PipeOp × Stats :=
  if failing.contains k then
    (acc.1, { acc.2 with errors := acc.2.errors ++
      ["Error processing key " ++ k ++ ": " ++ ioMsg] })
  else
    let ttl := srcTtl src k
    let ops : List PipeOp :=
      match srcType src k with
      | RType.str =>
        match srcGet src k with
        | Option.some v => [PipeOp.setOp k v]
        | Option.none => []
      | RType.hash =>
        let data := srcHgetall src k
        if data.length > 0 then [PipeOp.hmsetOp k data] else []
      | _ => []
    let ops := ops ++ (if ttl > 0 then [PipeOp.expireOp k ttl] else [])
    (acc.1 ++ ops, { acc.2 with processed := acc.2.processed + 1 })

/-- One chunk of the bulk scan: buffer the whole chunk, execute the
pipeline, then emit a progress event iff `processed` is a multiple of
1000 (part_003 lines 343-400). -/
def bulkChunkRun (src : Store) (failing : List String) (keys : List String)
    (s : EngineSt) : EngineSt :=
  let folded := keys.foldl (bulkKeyStep src failing) ([], s.stats)
  let tgt := applyPipe s.target folded.1
  let evs : List Ev :=
    if folded.2.processed % 1000 = 0 then
      [Ev.progress folded.2.processed folded.2.total
        (percentJS folded.2.processed folded.2.total)]
    else []
  { s with target := tgt, stats := folded.2, events := s.events ++ evs }

/-- Helper for `chunksOf`: `k` counts the room left in the chunk being
accumulated (in reverse) in `acc`. -/
def chunksOfAux (n : Nat) : Nat → List String → List String → List (List String)
  | _, acc, [] => if acc.isEmpty then [] else [acc.reverse]
  | k, acc, x :: xs =>
    if k ≤ 1 then (acc.reverse ++ [x]) :: chunksOfAux n n [] xs
    else chunksOfAux n (k - 1) (x :: acc) xs

/-- Split a list into chunks of `n` (the scan loop slices each page into
chunks of 1000). -/
def chunksOf (n : Nat) (l : List String) : List (List String) :=
  chunksOfAux n n [] l

/-- The body of `start` after validation and subscriber setup (part_003
lines 315-419), for a source whose single SCAN page returns `keys` and
whose cursor then reports exhaustion: read DBSIZE into `total`, run the
chunks, clear the scan flag, emit `scanComplete`, and — if still running
— emit a final progress event whose percent is the literal constant 100. -/
def startScanRun (src : Store) (failing : List String) (keys : List String)
    (s : EngineSt) : EngineSt :=
  let st0 : Stats := { processed := 0, total := srcDbsize src, errors := [] }
  let s0 := { s with scanRunning := true, isRunning := true, stats := st0 }
  let s1 := (chunksOf 1000 keys).foldl
    (fun acc ch => bulkChunkRun src failing ch acc) s0
  let s2 := { s1 with scanRunning := false,
                      events := s1.events ++ [Ev.scanComplete] }
  if s2.isRunning then
    { s2 with events := s2.events ++
        [Ev.progress s2.stats.processed s2.stats.total (Option.some 100)] }
  else s2

/-- The observable stats states of `migrateKey`'s counter update
(part_003 lines 232-234): first the bare increment, then the clamp to
`total`. -/
def migrateKeyStatTrace (st : Stats) : List Stats :=
  let s1 : Stats := { st with processed := st.processed + 1 }
  let s2 : Stats := { s1 with processed := min s1.processed s1.total }
  [s1, s2]

/-- The observable stats state of the bulk scan loop's counter update
(part_003 line 375): a bare increment, never clamped. -/
def bulkKeyStatTrace (st : Stats) : List Stats :=
  [{ st with processed := st.processed + 1 }]

/-- The observable stats states of `updateCounts` (part_003 lines
539-541): first `total` is overwritten with the fresh DBSIZE, then
`processed` is clamped to it. -/
def updateCountsStatTrace (dbsize : Nat) (st : Stats) : List Stats :=
  let s1 : Stats := { st with total := dbsize }
  let s2 : Stats := { s1 with processed := min s1.processed s1.total }
  [s1, s2]

/-- Outcome of one PING against a session: success, or a failure carrying
the client error's `code` and `message`. -/
inductive PingResult where
  | ok
  | fail (code : Option String) (message : String)
deriving Repr, DecidableEq

/-- Whether `small` occurs at the start of `hay`. -/
def isPrefixList : List Char → List Char → Bool
  | [], _ => true
  | _ :: _, [] => false
  | a :: as, b :: bs => a = b && isPrefixList as bs

/-- Whether `needle` occurs as a contiguous segment of the second list
(JavaScript `String.includes`). -/
def containsSeg (needle : List Char) : List Char → Bool
  | [] => isPrefixList needle []
  | c :: rest => isPrefixList needle (c :: rest) || containsSeg needle rest

/-- JavaScript `hay.includes(needle)`. -/
def strContains (hay needle : String) : Bool :=
  containsSeg needle.toList hay.toList

/-- `testConnection` (part_003 lines 632-660): `none` on success, else
the human-readable kinded message chosen by the cascade over the error's
`code`/`message` — verbatim strings from the source; the fallback is the
generic `Connection failed`. -/
def testConnection : PingResult → Option String
  | PingResult.ok => Option.none
  | PingResult.fail code msg =>
    Option.some (
      if code = Option.some "ECONNREFUSED" then
        "Connection refused. Please check if Redis is running and the host/port are correct."
      else if strContains msg "WRONGPASS" || strContains msg "AUTH" then
        "Authentication failed. Please check your password."
      else if code = Option.some "ETIMEDOUT" then
        "Connection timed out. Please check your host address and network connectivity."
      else if code = Option.some "ENOTFOUND" then
        "Host not found. Please check your host address."
      else if code = Option.some "ECONNRESET" then
        "Connection reset by peer. This might be due to network issues or firewall restrictions."
      else "Connection failed")

/-- The message `validateConnections` throws upon detecting identical
server-info replies. -/
def sameInstanceMsg : String :=
  "Source and target appear to be the same Redis instance. Please use different instances."

/-- The message the inner catch of `validateConnections` substitutes for
ANY error raised inside the info-comparison block. -/
def genericValidateMsg : String :=
  "Failed to validate Redis instances. Please check your connection settings."

/-- `validateConnections` (part_003 lines 662-693), over the outcomes of
the two pings and the two `INFO server` replies.  The returned Bool
records whether `cleanup` ran (the outer catch always runs it before
rethrowing).  Faithful detail: the same-instance throw happens INSIDE the
inner try, whose catch replaces whatever it caught with
`genericValidateMsg`. -/
def validateConnectionsRun (sp tp : PingResult)
    (si ti : Except String String) : Except String Unit × Bool :=
  match testConnection sp with
  | Option.some e => (Except.error ("Source Redis: " ++ e), true)
  | Option.none =>
    match testConnection tp with
    | Option.some e => (Except.error ("Target Redis: " ++ e), true)
    | Option.none =>
      let inner : Except String Unit :=
        match si, ti with
        | Except.ok a, Except.ok b =>
          if a = b then Except.error sameInstanceMsg else Except.ok ()
        | Except.error m, _ => Except.error m
        | _, Except.error m => Except.error m
      match inner with
      | Except.error _ => (Except.error genericValidateMsg, true)
      | Except.ok _ => (Except.ok (), false)

/-- JavaScript `String.split(c)` over a character list: every occurrence
of `c` separates segments, empty segments preserved. -/
def splitOnChar (c : Char) : List Char → List (List Char)
  | [] => [[]]
  | x :: xs =>
    if x = c then [] :: splitOnChar c xs
    else
      match splitOnChar c xs with
      | [] => [[x]]
      | seg :: rest => (x :: seg) :: rest

/-- JavaScript `Array.join(c)`. -/
def joinChar (c : Char) : List (List Char) → List Char
  | [] => []
  | [seg] => seg
  | seg :: rest => seg ++ c :: joinChar c rest

/-- The key recovery both pmessage handlers perform on a notification
channel: `channel.split(':').slice(1).join(':')`. -/
def recoverKey (channel : List Char) : List Char :=
  joinChar ':' ((splitOnChar ':' channel).drop 1)

/-- The channel prefix of a keyspace notification, before the colon. -/
def keyspaceChan : List Char := "__keyspace@0__".toList

/-- Well-formed Redis value: containers are non-empty (an empty container
key does not exist on a server) and set members are distinct. -/
def wfVal : RVal → Prop
  | RVal.str _ => True
  | RVal.hash f => f ≠ []
  | RVal.set m => m ≠ [] ∧ m.Nodup
  | RVal.zset p => p ≠ []
  | RVal.list i => i ≠ []

/-- Replicate keys one after another through `migrateKey` with no
injected failures, threading target and stats, as a drain does. -/
def migrateAll (src : Store) (keys : List String) (tgt : Store)
    (st : Stats) : Store × Stats :=
  keys.foldl (fun acc k =>
    let r := migrateKeyRun src src src [] k acc.1 acc.2
    (r.target, r.stats)) (tgt, st)

/-- Whether every progress event in a list carries percent exactly 100. -/
def progressAt100 : Ev → Bool
  | Ev.progress _ _ (Option.some q) => decide (q = 100)
  | Ev.progress _ _ Option.none => false
  | _ => true

/-- A fresh engine state: running with sync enabled, all sessions open,
an empty pending set, the given target store and counters, and no events
emitted yet. -/
def mkEngine (tgt : Store) (st : Stats) : EngineSt :=
  ⟨true, true, false, true, true, true, true, [], false, tgt, st, []⟩

/-- Scenario C source: one key of each of the five container kinds. -/
def mixedSrc : Store :=
  [("s1", ⟨RVal.str "hello", -1⟩),
   ("h1", ⟨RVal.hash [("a", "1"), ("b", "2")], -1⟩),
   ("u1", ⟨RVal.set ["x", "y", "z"], -1⟩),
   ("z1", ⟨RVal.zset [("m1", "1.5"), ("m2", "2.5")], -1⟩),
   ("l1", ⟨RVal.list ["alpha", "beta", "gamma"], -1⟩)]

/-- The five Scenario C keys in scan order. -/
def mixedKeys : List String := ["s1", "h1", "u1", "z1", "l1"]

/-- Scenario C target after replicating every key through `migrateKey`. -/
def mixedViaMigrateKey : Store :=
  (migrateAll mixedSrc mixedKeys [] ⟨0, 5, []⟩).1

/-- Scenario C target after the bulk scan path of `start` processes the
same five keys as one chunk. -/
def mixedViaBulkScan : Store :=
  (bulkChunkRun mixedSrc [] mixedKeys (mkEngine [] ⟨0, 5, []⟩)).target

/-- A two-key source for the coalescing-queue trace. -/
def drainSrc : Store :=
  [("k1", ⟨RVal.str "v1", -1⟩), ("k2", ⟨RVal.str "v2", -1⟩)]

/-- The engine state after the CDC trace: a set-notification for `k1`
(whose drain completes), then a set-notification for `k2` arriving after
that drain finished. -/
def stuckSt : EngineSt :=
  onUpdateNotif drainSrc [] "k2"
    (onUpdateNotif drainSrc [] "k1" (mkEngine [] ⟨0, 2, []⟩))

/-- Source for the realtime-handler dispatch counterexamples: key `L`
holds the one-element list. -/
def listSrc : Store := [("L", ⟨RVal.list ["a"], -1⟩)]

/-- Engine state whose target still holds the stale two-element list
under `L`. -/
def listEngine : EngineSt :=
  mkEngine [("L", ⟨RVal.list ["a", "b"], -1⟩)] ⟨1, 1, []⟩

/-- Source for the per-key failure scenario: keys `a` and `b`; the
injected I/O failure will hit `a`. -/
def failSrc : Store :=
  [("a", ⟨RVal.str "va", -1⟩), ("b", ⟨RVal.str "vb", -1⟩)]

/-- C1.  Evaluation of the code at the failing input.  Replicating the
five Scenario C keys through `migrateKey` yields a target identical to
the source on all five keys (the ordered list in order); but the bulk
scan path of `start` — whose switch only buffers the `string` and `hash`
cases, the remaining cases being elided in the source behind the comment
`// ... other cases remain the same ...` — leaves the unordered-set,
score-ordered-set and ordered-list keys entirely absent from the target,
while still counting all five keys as processed. -/
theorem mixed_types_bulk_scan_divergence :
    sLookup "s1" mixedViaMigrateKey = sLookup "s1" mixedSrc
  ∧ sLookup "h1" mixedViaMigrateKey = sLookup "h1" mixedSrc
  ∧ sLookup "u1" mixedViaMigrateKey = sLookup "u1" mixedSrc
  ∧ sLookup "z1" mixedViaMigrateKey = sLookup "z1" mixedSrc
  ∧ sLookup "l1" mixedViaMigrateKey =
      Option.some ⟨RVal.list ["alpha", "beta", "gamma"], -1⟩
  ∧ sLookup "s1" mixedViaBulkScan = sLookup "s1" mixedSrc
  ∧ sLookup "h1" mixedViaBulkScan = sLookup "h1" mixedSrc
  ∧ sLookup "u1" mixedViaBulkScan = Option.none
  ∧ sLookup "z1" mixedViaBulkScan = Option.none
  ∧ sLookup "l1" mixedViaBulkScan = Option.none
  ∧ (bulkChunkRun mixedSrc [] mixedKeys
       (mkEngine [] ⟨0, 5, []⟩)).stats.processed = 5 := by
  decide

/-- C2 counterexample.  The invariant `processed ≤ total` fails at an
observable instant: starting from the legal state processed = total = 1,
the state reached right after the bare increment of `migrateKey` (before
its clamp) violates it, as does the bulk scan loop's unclamped per-key
increment, and `updateCounts` violates it between overwriting `total`
with a smaller DBSIZE and clamping. -/
theorem processed_exceeds_total_mid_update :
    ¬ (∀ s ∈ migrateKeyStatTrace ⟨1, 1, []⟩, s.processed ≤ s.total)
  ∧ ¬ (∀ s ∈ bulkKeyStatTrace ⟨1, 1, []⟩, s.processed ≤ s.total)
  ∧ ¬ (∀ s ∈ updateCountsStatTrace 0 ⟨1, 1, []⟩, s.processed ≤ s.total) := by
  decide

/-- C2 as amended: the invariant `stats.processed ≤ stats.total` holds at
the END of `migrateKey`'s counter update (after its clamp) and at the end
of `updateCounts`, for every starting stats state; it is not maintained
after each individual step, and the bulk scan loop's increment is never
clamped at all. -/
theorem processed_le_total_after_clamped_updates (st : Stats) (n : Nat) :
    ((migrateKeyStatTrace st).getLastD st).processed ≤
      ((migrateKeyStatTrace st).getLastD st).total
  ∧ ((updateCountsStatTrace n st).getLastD st).processed ≤
      ((updateCountsStatTrace n st).getLastD st).total := by
  constructor
  · simp [migrateKeyStatTrace]
  · simp [updateCountsStatTrace]

/-- C7.  Evaluation of the code at the failing input.  When both pings
succeed and the two `INFO server` replies are identical (the
same-instance case), `validateConnections` does NOT surface the
`SameInstance` kind: its inner catch swallows its own throw (the catch
comment in the source says it is for info-command failures) and replaces
it with the generic validation message — the very message an info-read
failure produces, so the caller cannot distinguish the two.  Cleanup
still runs on both failure paths. -/
theorem same_instance_error_masked :
    validateConnectionsRun PingResult.ok PingResult.ok
        (Except.ok "server-info") (Except.ok "server-info")
      = (Except.error genericValidateMsg, true)
  ∧ genericValidateMsg ≠ sameInstanceMsg
  ∧ validateConnectionsRun PingResult.ok PingResult.ok
        (Except.error "read failed") (Except.ok "server-info")
      = (Except.error genericValidateMsg, true) := by
  refine ⟨rfl, by decide, rfl⟩

/-- C8 counterexample.  A per-key failure on the bulk scanner's path
(key `a` of the two-key chunk fails) appends the message to the error
list but emits NO `error` event — the events list stays empty —
contradicting the claim that every per-key replication failure emits an
`error` event. -/
theorem bulk_scan_failure_emits_no_error_event :
    (bulkChunkRun failSrc ["a"] ["a", "b"]
        (mkEngine [] ⟨0, 2, []⟩)).stats.errors
      = ["Error processing key a: " ++ ioMsg]
  ∧ (bulkChunkRun failSrc ["a"] ["a", "b"]
        (mkEngine [] ⟨0, 2, []⟩)).events = [] := by
  decide

/-- The bulk chunk fold counts exactly the keys whose reads do not fail:
failing keys never advance `processed`, every other key of the chunk
still does. -/
theorem bulk_fold_processed (src : Store) (failing : List String)
    (keys : List String) (acc : List PipeOp × Stats) :
    (keys.foldl (bulkKeyStep src failing) acc).2.processed
      = acc.2.processed
        + (keys.filter (fun k => !(failing.contains k))).length := by
  induction keys generalizing acc with
  | nil => simp
  | cons k ks ih =>
    rw [List.foldl_cons, ih]
    by_cases hk : k ∈ failing
    · simp [bulkKeyStep, hk, List.filter_cons]
    · simp [bulkKeyStep, hk, List.filter_cons]
      omega

/-- A bulk chunk emits no `error` event of its own: any `error` event
observable after the chunk was already there before it. -/
theorem bulk_no_error_event (src : Store) (failing : List String)
    (keys : List String) (s : EngineSt) (m : String)
    (h : Ev.errorEv m ∈ (bulkChunkRun src failing keys s).events) :
    Ev.errorEv m ∈ s.events := by
  simp only [bulkChunkRun] at h
  rcases List.mem_append.mp h with h1 | h1
  · exact h1
  · split at h1 <;> simp at h1

/-- C8 as amended, universally over every per-key replication failure:
(i) a failing `migrateKey` invocation changes neither the target nor any
counter and its error names the key; (ii) the drain step for a failing
key only appends `Error processing key K: ...` to the error list and
emits an `error` event; (iii) a drain whose snapshot contains a failing
key still folds its step over every key before and after it (it never
aborts); (iv) the bulk scanner's per-key step for a failing key only
appends the message naming the key — no pipeline command, no counter,
and no event; (v) the bulk chunk still counts every non-failing key of
the chunk as processed; and (vi) the bulk path emits no `error` event at
all — any `error` event present after a chunk predates it. -/
theorem per_key_failure_handling :
    (∀ (src : Store) (failing : List String) (k : String)
       (tgt : Store) (st : Stats), k ∈ failing →
         migrateKeyRun src src src failing k tgt st
           = ⟨tgt, st, [],
              Option.some ("Migration failed for key " ++ k ++ ": " ++ ioMsg)⟩)
  ∧ (∀ (src : Store) (failing : List String) (k : String)
       (acc : EngineSt), k ∈ failing →
         drainStep src failing acc k
           = { acc with
               stats := { acc.stats with
                 errors := acc.stats.errors ++
                   ["Error processing key " ++ k ++ ": " ++
                    ("Migration failed for key " ++ k ++ ": " ++ ioMsg)] },
               events := acc.events ++
                 [Ev.errorEv
                   ("Migration failed for key " ++ k ++ ": " ++ ioMsg)] })
  ∧ (∀ (src : Store) (failing : List String) (s : EngineSt)
       (pre post : List String) (k : String),
       s.queue = pre ++ k :: post →
         drainRun src failing s
           = post.foldl (drainStep src failing)
               (drainStep src failing
                 (pre.foldl (drainStep src failing)
                   { s with processing := true, queue := [] }) k))
  ∧ (∀ (src : Store) (failing : List String) (k : String)
       (acc : List PipeOp × Stats), k ∈ failing →
         bulkKeyStep src failing acc k
           = (acc.1, { acc.2 with errors := acc.2.errors ++
               ["Error processing key " ++ k ++ ": " ++ ioMsg] }))
  ∧ (∀ (src : Store) (failing : List String) (keys : List String)
       (acc : List PipeOp × Stats),
         (keys.foldl (bulkKeyStep src failing) acc).2.processed
           = acc.2.processed
             + (keys.filter (fun k => !(failing.contains k))).length)
  ∧ (∀ (src : Store) (failing : List String) (keys : List String)
       (s : EngineSt) (m : String),
         Ev.errorEv m ∈ (bulkChunkRun src failing keys s).events →
           Ev.errorEv m ∈ s.events) := by
  refine ⟨?_, ?_, ?_, ?_, ?_, ?_⟩
  · intro src failing k tgt st hk
    simp [migrateKeyRun, hk]
  · intro src failing k acc hk
    simp [drainStep, migrateKeyRun, hk]
  · intro src failing s pre post k hq
    have hne : ¬ (s.queue = []) := by rw [hq]; simp
    simp only [drainRun, if_neg hne]
    rw [hq, List.foldl_append, List.foldl_cons]
  · intro src failing k acc hk
    simp [bulkKeyStep, hk]
  · intro src failing keys acc
    exact bulk_fold_processed src failing keys acc
  · intro src failing keys s m h
    exact bulk_no_error_event src failing keys s m h

/-- Witness for the per-key failure theorem: each hypothesis-bearing
clause applied at the concrete two-key scenario where key `a` fails. -/
theorem per_key_failure_handling_witness :
    (migrateKeyRun failSrc failSrc failSrc ["a"] "a" []
        ⟨0, 2, []⟩).stats.processed = 0
  ∧ (drainStep failSrc ["a"] (mkEngine [] ⟨0, 2, []⟩) "a").events
      = [Ev.errorEv ("Migration failed for key a: " ++ ioMsg)]
  ∧ (drainRun failSrc ["a"]
        { mkEngine [] ⟨0, 2, []⟩ with queue := ["a", "b"] }).stats.errors
      = ["Error processing key a: Migration failed for key a: " ++ ioMsg]
  ∧ (bulkKeyStep failSrc ["a"] ([], ⟨0, 2, []⟩) "a").2.errors
      = ["Error processing key a: " ++ ioMsg]
  ∧ Ev.errorEv "x"
      ∈ ({ mkEngine [] ⟨0, 2, []⟩ with
           events := [Ev.errorEv "x"] } : EngineSt).events := by
  refine ⟨?_, ?_, ?_, ?_, ?_⟩
  · rw [per_key_failure_handling.1 failSrc ["a"] "a" [] ⟨0, 2, []⟩ (by decide)]
  · rw [per_key_failure_handling.2.1 failSrc ["a"] "a"
        (mkEngine [] ⟨0, 2, []⟩) (by decide)]
    decide
  · rw [per_key_failure_handling.2.2.1 failSrc ["a"]
        { mkEngine [] ⟨0, 2, []⟩ with queue := ["a", "b"] } [] ["b"] "a" rfl]
    decide
  · rw [per_key_failure_handling.2.2.2.1 failSrc ["a"] "a"
        ([], ⟨0, 2, []⟩) (by decide)]
    decide
  · exact per_key_failure_handling.2.2.2.2.2 failSrc ["a"] ["a", "b"]
      { mkEngine [] ⟨0, 2, []⟩ with events := [Ev.errorEv "x"] } "x" (by decide)

/-- C9 counterexample.  The percent computation is NOT guarded against a
zero total: evaluated at processed = 0, total = 0 it is NaN (modelled
as `Option.none`), and `updateCounts` invoked while the source is empty
emits a progress event carrying that NaN percent. -/
theorem percent_formula_nan_at_zero_total :
    percentJS 0 0 = Option.none
  ∧ (updateCountsRun 0 ⟨0, 0, []⟩).2 = [Ev.progress 0 0 Option.none] := by
  decide

/-- If the drain flag is already set, an update notification merely adds
the key to the pending set: no drain starts, the flag stays set, and no
event is emitted. -/
theorem onUpdateNotif_when_processing (src : Store) (f : List String)
    (k : String) (s : EngineSt) (h : s.processing = true) :
    onUpdateNotif src f k s = { s with queue := addKey s.queue k } := by
  simp [onUpdateNotif, h]

/-- Folding any further update notifications over a state whose drain
flag is set never changes the emitted events (and the flag stays set). -/
theorem foldl_onUpdateNotif_frozen (src : Store) (f : List String)
    (ks : List String) (s : EngineSt) (h : s.processing = true) :
    (ks.foldl (fun acc k => onUpdateNotif src f k acc) s).events = s.events := by
  induction ks generalizing s with
  | nil => rfl
  | cons k ks ih =>
    rw [List.foldl_cons, onUpdateNotif_when_processing src f k s h]
    exact ih { s with queue := addKey s.queue k } h

/-- C3.  Evaluation of the code at the failing input.  After a
set-notification for `k1` (whose drain completes) and a later
set-notification for `k2`, the engine is stuck: `k2` sits in the pending
set, the `processingQueue` flag is still `true` (the source never clears
it after a non-empty drain and never re-examines the set), and no later
sequence of update notifications ever gets `k2` replicated — the
key-processed event for `k2` can never be emitted. -/
theorem pending_key_never_drained_after_first_drain :
    stuckSt.queue = ["k2"]
  ∧ stuckSt.processing = true
  ∧ stuckSt.events = [Ev.progress 1 2 (percentJS 1 2),
                      Ev.keyProcessed "k1" "update"]
  ∧ ∀ ks : List String,
      Ev.keyProcessed "k2" "update"
        ∉ (ks.foldl (fun acc k => onUpdateNotif drainSrc [] k acc) stuckSt).events := by
  refine ⟨by decide, by decide, by rfl, ?_⟩
  intro ks
  rw [foldl_onUpdateNotif_frozen drainSrc [] ks stuckSt (by decide)]
  decide

/-- C4 counterexample.  Immediately after `stop` returns, none of the
three sessions has been closed: `stop` only clears flags, unsubscribes
and empties the pending set — closing the sessions is `cleanup`'s job. -/
theorem stop_does_not_close_sessions :
    ¬ ((stopRun (mkEngine [] ⟨0, 0, []⟩)).sourceOpen = false
     ∧ (stopRun (mkEngine [] ⟨0, 0, []⟩)).targetOpen = false
     ∧ (stopRun (mkEngine [] ⟨0, 0, []⟩)).subscriberOpen = false) := by
  decide

/-- C4 as amended: after `stop` returns, no engine task issues another
target write — both pmessage handlers become identities because the sync
flag is cleared, the bulk scan loop's guard is false, and the pending
set is empty — but the three sessions are exactly as open as before;
they are closed only when `cleanup` runs. -/
theorem stop_halts_writes_cleanup_closes_sessions (s : EngineSt)
    (src : Store) (f : List String) (k op : String) :
    onNotifEnable src f k op (stopRun s) = stopRun s
  ∧ onNotifSetup src f k op (stopRun s) = stopRun s
  ∧ scanLoopGuard (stopRun s) = false
  ∧ (stopRun s).queue = []
  ∧ (stopRun s).sourceOpen = s.sourceOpen
  ∧ (stopRun s).targetOpen = s.targetOpen
  ∧ (stopRun s).subscriberOpen = s.subscriberOpen
  ∧ (cleanupRun s).sourceOpen = false
  ∧ (cleanupRun s).targetOpen = false
  ∧ (cleanupRun s).subscriberOpen = false := by
  refine ⟨?_, ?_, rfl, rfl, rfl, rfl, rfl, rfl, rfl, rfl⟩
  · simp [onNotifEnable, stopRun]
  · simp [onNotifSetup, stopRun]

/-- C9 as amended: with an empty source, `start` completes, emits
`scanComplete` with total = 0 and processed = 0, and its only progress
event carries percent 100 — because the post-scan emission hard-codes
the literal 100, not because the percent formula is guarded (it is not:
see the division-by-zero evaluation). -/
theorem empty_source_scan_completes :
    (startScanRun [] [] [] (mkEngine [] ⟨0, 0, []⟩)).stats.total = 0
  ∧ (startScanRun [] [] [] (mkEngine [] ⟨0, 0, []⟩)).stats.processed = 0
  ∧ (startScanRun [] [] [] (mkEngine [] ⟨0, 0, []⟩)).events
      = [Ev.scanComplete, Ev.progress 0 0 (Option.some 100)]
  ∧ (startScanRun [] [] [] (mkEngine [] ⟨0, 0, []⟩)).events.all progressAt100
      = true := by
  decide

/-- C5 counterexample.  Three dispatch behaviours contradict the claim at
concrete inputs.  An `lpop` notification for the list key `L` has NO
effect under the handler `enableRealtimeSync` registers (the only one
part_003 registers): the target keeps its stale two-element list instead
of being re-replicated to the source's one-element list.  An `sadd`
notification does not add the key to the coalescing queue (it is
replicated inline).  And under the `setupKeyspaceNotifications` handler
an `expire` notification is ignored rather than TTL-synced. -/
theorem notification_dispatch_mismatch :
    onNotifEnable listSrc [] "L" "lpop" listEngine = listEngine
  ∧ sLookup "L" (onNotifEnable listSrc [] "L" "lpop" listEngine).target
      = Option.some ⟨RVal.list ["a", "b"], -1⟩
  ∧ sLookup "L" listSrc = Option.some ⟨RVal.list ["a"], -1⟩
  ∧ (onNotifEnable listSrc [] "L" "sadd" listEngine).queue = []
  ∧ onNotifSetup listSrc [] "L" "expire" listEngine = listEngine := by
  refine ⟨by decide, by decide, by decide, ?_, by decide⟩
  decide

/-- Dispatch of the `enableRealtimeSync` handler for any of its six
update operations: the coalescing queue and its flag are untouched, and
on success the target is exactly what the inline `migrateKey` produced. -/
theorem onNotifEnable_update_case (src : Store) (f : List String)
    (k op : String) (s : EngineSt) (h : s.sync = true)
    (hop : op ∈ updateOps) :
      (onNotifEnable src f k op s).queue = s.queue
    ∧ (onNotifEnable src f k op s).processing = s.processing
    ∧ ((migrateKeyRun src src src f k s.target s.stats).error = Option.none →
        (onNotifEnable src f k op s).target =
          (migrateKeyRun src src src f k s.target s.stats).target) := by
  cases hr : (migrateKeyRun src src src f k s.target s.stats).error with
  | none => simp [onNotifEnable, h, hop, hr, updateCountsRun]
  | some e => simp [onNotifEnable, h, hop, hr]

/-- C5 as amended: dispatch of the handler actually registered (the one
`enableRealtimeSync` installs): `del` deletes inline and emits its
key-processed event; `expire` re-reads the source TTL and applies it to
the target iff positive; each of set/hset/sadd/zadd/lpush/rpush is
replicated inline through `migrateKey` — the coalescing queue and its
drain flag are untouched — and every other operation (lpop, rpop, lset,
lrem, ltrim included) has no effect at all. -/
theorem realtime_handler_dispatch (src : Store) (f : List String)
    (k : String) (s : EngineSt) (h : s.sync = true) :
    (onNotifEnable src f k "del" s).target = tDel s.target k
  ∧ (onNotifEnable src f k "del" s).events
      = s.events ++ [Ev.keyProcessed k "delete"]
  ∧ (onNotifEnable src f k "expire" s).target =
      (if srcTtl src k > 0 then tExpire s.target k (srcTtl src k) else s.target)
  ∧ (onNotifEnable src f k "expire" s).events
      = s.events ++ [Ev.keyProcessed k "expire"]
  ∧ (∀ op, op ∈ updateOps →
        (onNotifEnable src f k op s).queue = s.queue
      ∧ (onNotifEnable src f k op s).processing = s.processing
      ∧ ((migrateKeyRun src src src f k s.target s.stats).error = Option.none →
          (onNotifEnable src f k op s).target =
            (migrateKeyRun src src src f k s.target s.stats).target))
  ∧ (∀ op, op ∉ updateOps → op ≠ "del" → op ≠ "expire" →
        onNotifEnable src f k op s = s) := by
  refine ⟨?_, ?_, ?_, ?_, ?_, ?_⟩
  · simp [onNotifEnable, h, updateOps]
  · simp [onNotifEnable, h, updateOps]
  · simp [onNotifEnable, h, updateOps]
  · simp [onNotifEnable, h, updateOps]
  · intro op hop
    exact onNotifEnable_update_case src f k op s h hop
  · intro op h1 h2 h3
    simp [onNotifEnable, h, h1, h2, h3]

/-- Witness for the dispatch theorem: applied at the concrete
sync-enabled engine state, hypotheses discharged there. -/
theorem realtime_handler_dispatch_witness :
    (onNotifEnable listSrc [] "L" "del" listEngine).target
      = tDel listEngine.target "L" :=
  (realtime_handler_dispatch listSrc [] "L" listEngine (by decide)).1

/-- Looking up a key right after inserting it finds the new entry. -/
theorem sLookup_sInsert (s : Store) (k : String) (e : Entry) :
    sLookup k (sInsert s k e) = Option.some e := by
  simp [sInsert, sLookup]

/-- Deleting a key really removes it. -/
theorem sLookup_tDel_self (s : Store) (k : String) :
    sLookup k (tDel s k) = Option.none := by
  induction s with
  | nil => rfl
  | cons p rest ih =>
    by_cases hp : p.1 = k
    · simpa [tDel, hp] using ih
    · simpa [tDel, hp, sLookup] using ih

/-- Setting an expiry on a present key only rewrites its TTL. -/
theorem sLookup_tExpire (s : Store) (k : String) (r : Int) (e : Entry)
    (h : sLookup k s = Option.some e) :
    sLookup k (tExpire s k r) = Option.some ⟨e.val, r⟩ := by
  simp [tExpire, h, sLookup_sInsert]

/-- Folding SADD-style insertion of pairwise-distinct fresh members onto
an accumulator appends them in order. -/
theorem foldl_setAddOne (l : List String) (acc : List String)
    (hn : l.Nodup) (hd : ∀ x ∈ l, x ∉ acc) :
    l.foldl setAddOne acc = acc ++ l := by
  induction l generalizing acc with
  | nil => simp
  | cons x xs ih =>
    rw [List.foldl_cons]
    have hx : setAddOne acc x = acc ++ [x] := by
      simp [setAddOne, hd x (by simp)]
    rw [hx, ih (acc ++ [x]) (List.nodup_cons.mp hn).2 ?fresh]
    · simp
    case fresh =>
      intro y hy
      simp only [List.mem_append, List.mem_singleton]
      rintro (hya | rfl)
      · exact hd y (by simp [hy]) hya
      · exact (List.nodup_cons.mp hn).1 hy

/-- Re-pairing the flattened WITHSCORES reply recovers the pair list. -/
theorem zPairUp_flat (ps : List (String × String)) :
    zPairUp (ps.flatMap (fun p => [p.1, p.2])) = ps := by
  induction ps with
  | nil => rfl
  | cons p rest ih =>
    show zPairUp (p.1 :: p.2 :: rest.flatMap (fun p => [p.1, p.2]))
        = p :: rest
    rw [zPairUp, ih]

/-- A non-empty pair list flattens to a non-empty WITHSCORES reply. -/
theorem flatPairs_len_pos (ps : List (String × String)) (h : ps ≠ []) :
    (ps.flatMap (fun p => [p.1, p.2])).length > 0 := by
  cases ps with
  | nil => exact absurd rfl h
  | cons p rest => simp

/-- C6 counterexample.  A key that vanishes between the EXISTS check and
the TYPE/TTL reads (present in the exists-snapshot, absent afterwards,
so the TTL read is −2) is NOT treated as a delete: `migrateKey` throws
`Unsupported key type` from the TYPE dispatch and the target still holds
its old entry for the key. -/
theorem vanished_key_not_deleted :
    srcTtl ([] : Store) "k" = -2
  ∧ (migrateKeyRun [("k", ⟨RVal.str "v", -1⟩)] [] [] [] "k"
       [("k", ⟨RVal.str "old", -1⟩)] ⟨0, 1, []⟩).error
      = Option.some "Migration failed for key k: Unsupported key type"
  ∧ sLookup "k" (migrateKeyRun [("k", ⟨RVal.str "v", -1⟩)] [] [] [] "k"
       [("k", ⟨RVal.str "old", -1⟩)] ⟨0, 1, []⟩).target
      = Option.some ⟨RVal.str "old", -1⟩ := by
  decide

/-- C6 as amended: for a key present and unchanged during `migrateKey`
(well-formed value, fresh on the target), the routine succeeds and the
target receives the copied value with expiry R iff the TTL read R is
positive, and no expiry when R = −1 (or any non-positive R); but when
the key vanishes between the EXISTS check and the TYPE read (the TTL
read would report −2) the routine does NOT delete the target key: it
fails with `Unsupported key type` and leaves the target untouched. -/
theorem migrateKey_ttl_semantics :
    (∀ (s tgt : Store) (st : Stats) (k : String) (e : Entry),
       sLookup k s = Option.some e → wfVal e.val →
       sLookup k tgt = Option.none →
         (migrateKeyRun s s s [] k tgt st).error = Option.none
       ∧ sLookup k (migrateKeyRun s s s [] k tgt st).target
           = Option.some ⟨e.val, if e.ttl > 0 then e.ttl else -1⟩)
  ∧ (∀ (sE sR tgt : Store) (st : Stats) (k : String),
       srcExists sE k = true → sLookup k sR = Option.none →
         srcTtl sR k = -2
       ∧ (migrateKeyRun sE sR sR [] k tgt st).error
           = Option.some ("Migration failed for key " ++ k ++
               ": Unsupported key type")
       ∧ (migrateKeyRun sE sR sR [] k tgt st).target = tgt) := by
  constructor
  · rintro s tgt st k ⟨val, ttl⟩ h1 hwf h3
    cases val with
    | str v =>
      simp only [migrateKeyRun, srcExists, srcType, srcGet, srcTtl, h1,
        Option.isSome_some, List.contains, List.elem, Bool.true_eq_false,
        if_false, Bool.false_eq_true]
      constructor
      · trivial
      · by_cases httl : ttl > 0
        · rw [if_pos httl, if_pos httl]
          rw [sLookup_tExpire _ _ _ ⟨RVal.str v, -1⟩
            (by simp [tSet, sLookup_sInsert])]
        · rw [if_neg httl, if_neg httl]
          simp [tSet, sLookup_sInsert]
    | hash f =>
      have hne : f ≠ [] := hwf
      simp only [migrateKeyRun, srcExists, srcType, srcHgetall, srcTtl, h1,
        Option.isSome_some, List.contains, List.elem, Bool.true_eq_false,
        if_false, Bool.false_eq_true]
      rw [if_pos (List.length_pos.mpr hne)]
      constructor
      · trivial
      · by_cases httl : ttl > 0
        · rw [if_pos httl, if_pos httl]
          rw [sLookup_tExpire _ _ _ ⟨RVal.hash f, -1⟩
            (by simp [tHmset, h3, sLookup_sInsert])]
        · rw [if_neg httl, if_neg httl]
          simp [tHmset, h3, sLookup_sInsert]
    | set ms =>
      have hne : ms ≠ [] ∧ ms.Nodup := hwf
      simp only [migrateKeyRun, srcExists, srcType, srcSmembers, srcTtl, h1,
        Option.isSome_some, List.contains, List.elem, Bool.true_eq_false,
        if_false, Bool.false_eq_true]
      rw [if_pos (List.length_pos.mpr hne.1)]
      have hfold : ms.foldl setAddOne [] = ms := by
        simpa using foldl_setAddOne ms [] hne.2 (by simp)
      constructor
      · trivial
      · by_cases httl : ttl > 0
        · rw [if_pos httl, if_pos httl]
          rw [sLookup_tExpire _ _ _ ⟨RVal.set ms, -1⟩
            (by simp [tSadd, h3, sLookup_sInsert, hfold])]
        · rw [if_neg httl, if_neg httl]
          simp [tSadd, h3, sLookup_sInsert, hfold]
    | zset ps =>
      have hne : ps ≠ [] := hwf
      simp only [migrateKeyRun, srcExists, srcType, srcZrangeFlat, srcTtl, h1,
        Option.isSome_some, List.contains, List.elem, Bool.true_eq_false,
        if_false, Bool.false_eq_true]
      rw [if_pos (flatPairs_len_pos ps hne), zPairUp_flat]
      constructor
      · trivial
      · by_cases httl : ttl > 0
        · rw [if_pos httl, if_pos httl]
          rw [sLookup_tExpire _ _ _ ⟨RVal.zset ps, -1⟩
            (by simp [tZadd, h3, sLookup_sInsert])]
        · rw [if_neg httl, if_neg httl]
          simp [tZadd, h3, sLookup_sInsert]
    | list items =>
      have hne : items ≠ [] := hwf
      simp only [migrateKeyRun, srcExists, srcType, srcLrange, srcTtl, h1,
        Option.isSome_some, List.contains, List.elem, Bool.true_eq_false,
        if_false, Bool.false_eq_true]
      rw [if_pos (List.length_pos.mpr hne)]
      constructor
      · trivial
      · by_cases httl : ttl > 0
        · rw [if_pos httl, if_pos httl]
          rw [sLookup_tExpire _ _ _ ⟨RVal.list items, -1⟩
            (by simp [tRpush, sLookup_tDel_self, sLookup_sInsert])]
        · rw [if_neg httl, if_neg httl]
          simp [tRpush, sLookup_tDel_self, sLookup_sInsert]
  · intro sE sR tgt st k hE h2
    refine ⟨by simp [srcTtl, h2], ?_, ?_⟩ <;>
      simp [migrateKeyRun, srcType, srcTtl, hE, h2]

/-- Witness for the TTL-semantics theorem: both clauses applied at
concrete stores, hypotheses discharged there — a scalar with TTL 7 is
copied and expired, and a key absent at the TYPE read fails without
touching the target. -/
theorem migrateKey_ttl_semantics_witness :
    ((migrateKeyRun [("w", ⟨RVal.str "v", 7⟩)] [("w", ⟨RVal.str "v", 7⟩)]
          [("w", ⟨RVal.str "v", 7⟩)] [] "w" [] ⟨0, 1, []⟩).error = Option.none
     ∧ sLookup "w" (migrateKeyRun [("w", ⟨RVal.str "v", 7⟩)]
          [("w", ⟨RVal.str "v", 7⟩)] [("w", ⟨RVal.str "v", 7⟩)] [] "w" []
          ⟨0, 1, []⟩).target
         = Option.some ⟨RVal.str "v", if (7 : Int) > 0 then 7 else -1⟩)
  ∧ (srcTtl ([] : Store) "w" = -2
     ∧ (migrateKeyRun [("w", ⟨RVal.str "v", 7⟩)] [] [] [] "w" []
          ⟨0, 1, []⟩).error
         = Option.some ("Migration failed for key " ++ "w" ++
             ": Unsupported key type")
     ∧ (migrateKeyRun [("w", ⟨RVal.str "v", 7⟩)] [] [] [] "w" []
          ⟨0, 1, []⟩).target = []) :=
  ⟨migrateKey_ttl_semantics.1 [("w", ⟨RVal.str "v", 7⟩)] [] ⟨0, 1, []⟩ "w"
      ⟨RVal.str "v", 7⟩ (by decide) trivial rfl,
   migrateKey_ttl_semantics.2 [("w", ⟨RVal.str "v", 7⟩)] [] [] ⟨0, 1, []⟩ "w"
      (by decide) rfl⟩

/-- Splitting never yields the empty segment list. -/
theorem splitOnChar_ne_nil (c : Char) (l : List Char) :
    splitOnChar c l ≠ [] := by
  cases l with
  | nil => simp [splitOnChar]
  | cons x xs =>
    simp only [splitOnChar]
    split
    · simp
    · split <;> simp

/-- Splitting a list that starts with a separator-free block followed by
the separator peels the block off as the first segment. -/
theorem splitOnChar_sep (c : Char) (p k : List Char) (h : c ∉ p) :
    splitOnChar c (p ++ c :: k) = p :: splitOnChar c k := by
  induction p with
  | nil => simp [splitOnChar]
  | cons a p ih =>
    have ha : ¬ (a = c) := fun hac => h (by simp [hac])
    have hcp : c ∉ p := fun hc => h (by simp [hc])
    show splitOnChar c (a :: (p ++ c :: k)) = (a :: p) :: splitOnChar c k
    simp only [splitOnChar, if_neg ha]
    rw [ih hcp]

/-- Joining the segments of a split recovers the original list. -/
theorem joinChar_splitOnChar (c : Char) (l : List Char) :
    joinChar c (splitOnChar c l) = l := by
  induction l with
  | nil => rfl
  | cons x xs ih =>
    obtain ⟨s, r, hsr⟩ : ∃ s r, splitOnChar c xs = s :: r := by
      cases hh : splitOnChar c xs with
      | nil => exact absurd hh (splitOnChar_ne_nil c xs)
      | cons s r => exact ⟨s, r, rfl⟩
    by_cases hx : x = c
    · subst hx
      simp only [splitOnChar, if_pos rfl]
      rw [hsr] at ih ⊢
      simp only [joinChar]
      rw [ih]
      simp
    · simp only [splitOnChar, if_neg hx]
      rw [hsr] at ih ⊢
      cases r with
      | nil =>
        simp only [joinChar] at ih ⊢
        rw [ih]
      | cons r1 r2 =>
        simp only [joinChar] at ih ⊢
        rw [← ih]
        simp

/-- C10.  The key recovery `channel.split(':').slice(1).join(':')`
performed by the pmessage handlers returns the exact key for every
notification channel `__keyspace@0__:K` — including keys that themselves
contain `':'` characters, since every segment after the first is joined
back with the separator. -/
theorem notification_key_recovery_exact (k : List Char) :
    recoverKey (keyspaceChan ++ ':' :: k) = k := by
  unfold recoverKey
  rw [splitOnChar_sep ':' keyspaceChan k (by decide)]
  simp [joinChar_splitOnChar]

end RedisMigrator
